import Mathlib

/-!
Verification of the sds-api-gateway generation-task orchestrator.

Shallow embedding of `src/api/comfy.py` (the progress normalizer
`track_progress`, the generator `generate_3d_prompt` and the class
`GenerationTask`) and of the task-registry endpoints in `src/app.py`.

The websocket stream is modelled as a list of connection attempts, each a list
of raw messages followed by a close event; `track_progress` becomes a
recursive function from that input to the list of yielded items (status lines
and terminal boolean signals).
-/

namespace SdsGateway

/-- The four task states of `TaskStatus` in `src/api/comfy.py`. -/
inductive TaskStatus
  | NOT_STARTED
  | IN_PROGRESS
  | COMPLETED
  | FAILED
deriving DecidableEq, Repr

/-- Modelled from the spec: the concrete frame schema lives in
`src/api/comfy_msg_structs.py`, which is not part of the sources; the kinds
and their fields are reconstructed from their use in `track_progress`
(`src/api/comfy.py` lines 82-98) and from the spec's Progress Frame
description (a tagged union; queue-status frames carry no job identity, the
execution frames carry the `prompt_id` of their job). A `pid` field of type
`Option String` records whether the frame carries a job identity
(`hasattr(m.data, "prompt_id")` in the source). -/
inductive Frame
  | status (queueRemaining : Int)
  | progress (pid : Option String) (node : String) (value : Int) (mx : Int)
  | executing (pid : Option String) (node : String)
  | executionCached (pid : Option String) (nodes : List String)
  | executed (pid : Option String) (node : String)
  | executionStart (pid : String)
  | executionSuccess (pid : String)
deriving DecidableEq, Repr

/-- The job identity carried by a frame, if any
(`hasattr(m.data, "prompt_id")` and `m.data.prompt_id` in the source). -/
def Frame.promptId : Frame → Option String
  | .status _ => none
  | .progress p _ _ _ => p
  | .executing p _ => p
  | .executionCached p _ => p
  | .executed p _ => p
  | .executionStart p => some p
  | .executionSuccess p => some p

/-- The human-readable line `track_progress` yields for a frame
(`src/api/comfy.py` lines 82-96). -/
def Frame.line : Frame → String
  | .status q => "Queue Remaining: " ++ toString (q - 1)
  | .progress _ node v m =>
      "Progress (" ++ node ++ "): " ++ toString v ++ "/" ++ toString m
  | .executing _ node => "Executing Node: " ++ node
  | .executionCached _ nodes => "Cached Nodes: " ++ String.intercalate ", " nodes
  | .executed _ node => "Executed Node: " ++ node
  | .executionStart p => "Started: " ++ p
  | .executionSuccess p => "Complete: " ++ p

/-- One raw websocket message as seen by `track_progress`:
either `json.loads` fails (`invalidJson`), or the JSON parses but
`ComfyUIMessageAdapter.validate_python` rejects it (`unknown`, carrying the
text interpolated into the "Unknown msg" line), or it is a valid frame. -/
inductive RawMsg
  | invalidJson
  | unknown (txt : String)
  | frame (f : Frame)
deriving DecidableEq

/-- How one websocket connection ends: the message iterator is exhausted
(clean close), a `ConnectionClosed` exception interrupts it (unclean
disconnect), or some other exception is raised. -/
inductive ConnEnd
  | cleanClose
  | disconnect
  | fatal (e : String)
deriving DecidableEq

/-- One connection attempt delivered by the reconnecting
`async for ws in connect(...)` loop. -/
structure Connection where
  msgs : List RawMsg
  close : ConnEnd
deriving DecidableEq

/-- An item yielded by `track_progress`: a status line (str) or a terminal
signal (bool). -/
inductive Emit
  | line (s : String)
  | signal (ok : Bool)
deriving DecidableEq

/-- The frame filter of `src/api/comfy.py` lines 78-79: a frame is dropped
exactly when it carries a job identity different from the tracked one. -/
def matchesJob (pid : String) (f : Frame) : Bool :=
  match f.promptId with
  | some q => q = pid
  | none => true

/-- Whether a frame is the `execution_success` frame. -/
def Frame.isSuccess : Frame → Bool
  | .executionSuccess _ => true
  | _ => false

/-- Consume the messages of one connection as the inner
`async for raw in ws` loop of `track_progress` does, together with the
`try`/`except` arms around it. Returns the yielded items and a flag:
`true` when the generator returns (success, or a fatal classification),
`false` when it moves on to the next connection (reconnect). -/
def runMsgs (pid : String) : List RawMsg → ConnEnd → List Emit × Bool
  | [], .cleanClose =>
      ([.line "Error: Connection closed without generation completion?",
        .signal false], true)
  | [], .disconnect => ([], false)
  | [], .fatal e => ([.line ("Error: " ++ e), .signal false], true)
  | .invalidJson :: _, _ => ([], false)
  | .unknown t :: rest, close =>
      let r := runMsgs pid rest close
      (.line ("Unknown msg: " ++ t) :: r.1, r.2)
  | .frame f :: rest, close =>
      if matchesJob pid f then
        if f.isSuccess then ([.line f.line, .signal true], true)
        else
          let r := runMsgs pid rest close
          (.line f.line :: r.1, r.2)
      else runMsgs pid rest close

/-- Result of running `track_progress` on a finite list of connection
attempts: `finished` when the generator returned, `pending` when the
connection list was exhausted while the generator was still consuming
(it would block awaiting the next reconnect). -/
inductive TPResult
  | finished (ems : List Emit)
  | pending (ems : List Emit)
deriving DecidableEq

/-- The items yielded so far, in either case. -/
def TPResult.out : TPResult → List Emit
  | .finished o => o
  | .pending o => o

/-- Prepend earlier yields to a later result. -/
def TPResult.prepend (ems : List Emit) : TPResult → TPResult
  | .finished o => .finished (ems ++ o)
  | .pending o => .pending (ems ++ o)

/-- The progress normalizer `track_progress` of `src/api/comfy.py`
lines 62-114, as a function of the tracked job identity and the sequence of
connection attempts the reconnecting websocket loop delivers. -/
def track_progress (pid : String) : List Connection → TPResult
  | [] => .pending []
  | c :: cs =>
      let r := runMsgs pid c.msgs c.close
      if r.2 then .finished r.1
      else TPResult.prepend r.1 (track_progress pid cs)

example :
    track_progress "J1"
      [⟨[.frame (.progress (some "J1") "10" 3 10),
         .frame (.executionSuccess "J1")], .disconnect⟩]
      = .finished [.line "Progress (10): 3/10", .line "Complete: J1",
                   .signal true] := by
  decide

example :
    track_progress "J1" [⟨[.frame (.executionSuccess "J2")], .cleanClose⟩]
      = .finished [.line "Error: Connection closed without generation completion?",
                   .signal false] := by
  decide

/-- An item yielded by `generate_3d_prompt` / `generate_hdri_prompt`:
`(False, msg)` becomes `progressLine msg`, `(True, raw_file)` becomes
`result raw` (bytes modelled as a string). -/
inductive GenEmit
  | progressLine (msg : String)
  | result (raw : String)
deriving DecidableEq

/-- How a run of `generate_3d_prompt` unfolds from the point of view of its
consumer `_process`: the generator yields `emits` and then either returns
(`exhausted`), raises an exception (`raised`), or blocks forever awaiting
further frames (`hangs`). -/
inductive GenOutcome
  | exhausted (emits : List GenEmit)
  | raised (emits : List GenEmit) (e : String)
  | hangs (emits : List GenEmit)
deriving DecidableEq

/-- Prepend one earlier yield to a later outcome. -/
def GenOutcome.prepend (g : GenEmit) : GenOutcome → GenOutcome
  | .exhausted es => .exhausted (g :: es)
  | .raised es e => .raised (g :: es) e
  | .hangs es => .hangs (g :: es)

/-- Prepend several earlier yields to a later outcome. -/
def GenOutcome.prependAll (gs : List GenEmit) : GenOutcome → GenOutcome
  | .exhausted es => .exhausted (gs ++ es)
  | .raised es e => .raised (gs ++ es) e
  | .hangs es => .hangs (gs ++ es)

/-- The `async for status in track_progress(...)` loop of
`generate_3d_prompt` (`src/api/comfy.py` lines 168-182): each string is
re-yielded as `(False, status)`; on `True` the loop breaks and the result is
fetched (`get_history` / `get_file`, modelled by `fetch`: the artifact bytes
or the exception raised); on `False` the generator yields the fixed error
line and returns. `tail` is the outcome when the item list runs out:
`exhausted []` when `track_progress` had returned, `hangs []` when it was
still consuming. -/
def genLoop (fetch : Except String String) (tail : GenOutcome) :
    List Emit → GenOutcome
  | [] => tail
  | .line s :: rest => (genLoop fetch tail rest).prepend (.progressLine s)
  | .signal true :: _ =>
      match fetch with
      | .ok raw => .exhausted [.result raw]
      | .error e => .raised [] e
  | .signal false :: _ =>
      .exhausted [.progressLine "An error occurred during generation."]

/-- The generator `generate_3d_prompt` (`src/api/comfy.py` lines 163-182;
`generate_hdri_prompt` is line-for-line the same shape). `sub` models
`upload_image` plus `queue_prompt`: the minted job identity, or the exception
raised on submission failure; `conns` the websocket connection attempts;
`fetch` the result fetch after success. -/
def generate_prompt (sub : Except String String) (conns : List Connection)
    (fetch : Except String String) : GenOutcome :=
  match sub with
  | .error e => .raised [] e
  | .ok pid =>
      match track_progress pid conns with
      | .finished ems => genLoop fetch (.exhausted []) ems
      | .pending ems => genLoop fetch (.hangs []) ems

/-- The observable state of a `GenerationTask` (`src/api/comfy.py`
lines 190-244): `status`, the append-only `event_log`, `self.error`
(the stored failure detail), whether `self.duration` has been recorded, and
the value returned by the `_process` coroutine (`none` while it has not
returned; `some none` is Python `None`, `some (some raw)` the artifact). -/
structure TaskState where
  status : TaskStatus
  event_log : List String
  error : Option String
  durationSet : Bool
  retval : Option (Option String)
deriving DecidableEq

/-- How the `try` block of `_process` (`src/api/comfy.py` lines 216-227)
ends: `ok` with the appended lines and the raw file after `break`; `exn` when
an exception reaches the `except` arm (including the `RuntimeError` raised by
the loop's `else` clause); `hang` when the loop blocks forever. -/
inductive BodyResult
  | ok (lines : List String) (raw : String)
  | exn (lines : List String) (e : String)
  | hang (lines : List String)
deriving DecidableEq

/-- The `async for done, msg in gen` loop body: append each `(False, msg)`
line, break at the first `(True, raw_file)`. Returns the appended lines and
the raw file if the loop broke. -/
def drainEmits : List GenEmit → List String × Option String
  | [] => ([], none)
  | .progressLine s :: rest =>
      let r := drainEmits rest
      (s :: r.1, r.2)
  | .result raw :: _ => ([], some raw)

/-- Run the `try` block of `_process` against a generator outcome.
Exhaustion without a break triggers the `else` clause's
`RuntimeError("Comfyui stopped without completion.")`; an exception raised by
the generator after its yields reaches the `except` arm only if no `break`
happened first. -/
def runBody : GenOutcome → BodyResult
  | .exhausted es =>
      match drainEmits es with
      | (ls, some raw) => .ok ls raw
      | (ls, none) => .exn ls "Comfyui stopped without completion."
  | .raised es e =>
      match drainEmits es with
      | (ls, some raw) => .ok ls raw
      | (ls, none) => .exn ls e
  | .hangs es =>
      match drainEmits es with
      | (ls, some raw) => .ok ls raw
      | (ls, none) => .hang ls

/-- The driving routine `_process` (`src/api/comfy.py` lines 208-238) as a
total function to the final task state: the `except Exception` arm converts
every failure into the FAILED fields (so nothing propagates), and the code
after the `try` sets the COMPLETED fields. A hanging generator leaves the
task IN_PROGRESS with the lines appended so far. -/
def processTask (g : GenOutcome) : TaskState :=
  match runBody g with
  | .ok ls raw => ⟨.COMPLETED, ls, none, true, some (some raw)⟩
  | .exn ls e => ⟨.FAILED, ls ++ ["Error: " ++ e], some e, true, some none⟩
  | .hang ls => ⟨.IN_PROGRESS, ls, none, false, none⟩

/-- Whether the driving routine reached a terminal state. -/
def routineDone (g : GenOutcome) : Bool :=
  match runBody g with
  | .hang _ => false
  | _ => true

/-- The sequence of values `self.status` takes over a task's lifetime:
`NOT_STARTED` at construction (line 198), `IN_PROGRESS` at the top of
`_process` (line 210), then `FAILED` (line 231) or `COMPLETED` (line 236)
depending on how the body ends, in source order. -/
def statusTrace (g : GenOutcome) : List TaskStatus :=
  .NOT_STARTED :: .IN_PROGRESS ::
    (match runBody g with
     | .ok _ _ => [.COMPLETED]
     | .exn _ _ => [.FAILED]
     | .hang _ => [])

/-- Rank of a status along the lifecycle chain. -/
def statusRank : TaskStatus → Nat
  | .NOT_STARTED => 0
  | .IN_PROGRESS => 1
  | .COMPLETED => 2
  | .FAILED => 2

/-- Whether a status is terminal. -/
def TaskStatus.isTerminal : TaskStatus → Bool
  | .COMPLETED => true
  | .FAILED => true
  | _ => false

/-- Whether the result payload is present (the coroutine returned bytes). -/
def TaskState.hasPayload (t : TaskState) : Bool :=
  match t.retval with
  | some (some _) => true
  | _ => false

/-- Whether the failure detail `self.error` is present. -/
def TaskState.hasError (t : TaskState) : Bool :=
  t.error.isSome

example :
    processTask (generate_prompt (.ok "J1")
      [⟨[.frame (.progress (some "J1") "10" 3 10),
         .frame (.executionSuccess "J1")], .disconnect⟩] (.ok "GLB")) =
      ⟨.COMPLETED, ["Progress (10): 3/10", "Complete: J1"], none, true,
        some (some "GLB")⟩ := by
  decide

example :
    processTask (generate_prompt (.error "SubmissionError") [] (.ok "GLB")) =
      ⟨.FAILED, ["Error: SubmissionError"], some "SubmissionError", true,
        some none⟩ := by
  decide

example :
    processTask (generate_prompt (.ok "J1")
      [⟨[.frame (.progress (some "J1") "10" 3 10)], .disconnect⟩] (.ok "GLB")) =
      ⟨.IN_PROGRESS, ["Progress (10): 3/10"], none, false, none⟩ := by
  decide

/-- The two-level map `workflow_tasks` of `src/app.py` line 56
(client identifier → task identifier → task), as nested association lists. -/
abbrev Registry := List (String × List (String × TaskState))

/-- The lookup pattern of the endpoints in `src/app.py`
(`workflow_tasks.get(client_id, {})` then `tasks.get(task_id)`). -/
def lookupTask (reg : Registry) (cid tid : String) : Option TaskState :=
  match reg.lookup cid with
  | none => none
  | some tasks => tasks.lookup tid

/-- Outcome of an endpoint call: a response value, or a raised
`HTTPException(status_code, detail)`. -/
inductive ApiResult (α : Type)
  | ok (val : α)
  | httpError (code : Nat) (detail : String)
deriving DecidableEq

/-- The body of `get_obj_events` once the task is found (`src/app.py`
lines 112-114): the log suffix from `n_received` plus the new total length. -/
def get_obj_events (log : List String) (n_received : Nat) :
    List String × Nat :=
  (log.drop n_received, log.length)

/-- The endpoint `get_obj_events` (`src/app.py` lines 97-114): unknown
(client, task) pairs raise a 404 before any log access. -/
def get_obj_events_endpoint (reg : Registry) (cid tid : String)
    (n_received : Nat) : ApiResult (List String × Nat) :=
  match lookupTask reg cid tid with
  | none => .httpError 404 ("Task " ++ tid ++ " not found.")
  | some t => .ok (get_obj_events t.event_log n_received)

/-- The endpoint `check_obj_status` (`src/app.py` lines 81-95). -/
def check_obj_status (reg : Registry) (cid tid : String) :
    ApiResult TaskStatus :=
  match lookupTask reg cid tid with
  | none => .httpError 404 ("Task " ++ tid ++ " not found.")
  | some t => .ok t.status

/-- The lookup part of the endpoint `get_obj_result` (`src/app.py`
lines 118-136): unknown pairs raise a 404; otherwise the task's result is
awaited (its eventual coroutine return value). -/
def get_obj_result_endpoint (reg : Registry) (cid tid : String) :
    ApiResult (Option (Option String)) :=
  match lookupTask reg cid tid with
  | none => .httpError 404 ("Task " ++ tid ++ " not found.")
  | some t => .ok t.retval

/-- Outcome of calling `GenerationTask.result()`: the coroutine's return
value, still blocked, or the `RuntimeError` for a task never started. -/
inductive ResultCall
  | value (raw : Option String)
  | blocked
  | notStarted (e : String)
deriving DecidableEq

/-- `GenerationTask.result` (`src/api/comfy.py` lines 240-244): raise if
`self.task is None` (that is, `start()` was never called), otherwise await
the driving routine. -/
def GenerationTask_result (started : Bool) (g : GenOutcome) : ResultCall :=
  if started then
    match (processTask g).retval with
    | some r => .value r
    | none => .blocked
  else .notStarted "Task not started. Call start() first."

example :
    get_obj_events_endpoint [] "c" "t" 0 =
      .httpError 404 "Task t not found." := by
  decide

example :
    get_obj_events_endpoint
      [("c", [("t", ⟨.IN_PROGRESS, ["a", "b", "c"], none, false, none⟩)])]
      "c" "t" 1 = .ok (["b", "c"], 3) := by
  decide

/-! ### Helper lemmas -/

/-- Recognizes the terminal success signal `yield True`. -/
def isSuccessSignal : Emit → Bool
  | .signal true => true
  | _ => false

/-- Number of terminal success signals among yielded items. -/
def successCount (ems : List Emit) : Nat :=
  ems.countP isSuccessSignal

theorem TPResult.out_prepend (ems : List Emit) (t : TPResult) :
    (TPResult.prepend ems t).out = ems ++ t.out := by
  cases t <;> rfl

theorem successCount_append (a b : List Emit) :
    successCount (a ++ b) = successCount a + successCount b :=
  List.countP_append _ a b

theorem successCount_map_line (ls : List String) :
    successCount (ls.map Emit.line) = 0 := by
  induction ls with
  | nil => rfl
  | cons s rest ih =>
      simp only [List.map_cons, successCount, List.countP_cons, isSuccessSignal]
      simpa [successCount] using ih

/-- Every run of one connection yields only lines, except that a run on which
the generator returns ends with exactly one terminal signal. -/
theorem runMsgs_shape (pid : String) (msgs : List RawMsg) (close : ConnEnd) :
    ((runMsgs pid msgs close).2 = true →
      ∃ (ls : List String) (b : Bool),
        (runMsgs pid msgs close).1 = ls.map Emit.line ++ [Emit.signal b]) ∧
    ((runMsgs pid msgs close).2 = false →
      ∃ ls : List String, (runMsgs pid msgs close).1 = ls.map Emit.line) := by
  induction msgs with
  | nil =>
      cases close with
      | cleanClose =>
          refine ⟨fun _ => ⟨["Error: Connection closed without generation completion?"],
            false, rfl⟩, fun h => ?_⟩
          simp [runMsgs] at h
      | disconnect =>
          exact ⟨fun h => by simp [runMsgs] at h, fun _ => ⟨[], rfl⟩⟩
      | fatal e =>
          refine ⟨fun _ => ⟨["Error: " ++ e], false, rfl⟩, fun h => ?_⟩
          simp [runMsgs] at h
  | cons m rest ih =>
      cases m with
      | invalidJson =>
          exact ⟨fun h => by simp [runMsgs] at h, fun _ => ⟨[], rfl⟩⟩
      | unknown t =>
          constructor
          · intro h
            simp only [runMsgs] at h ⊢
            obtain ⟨ls, b, hout⟩ := ih.1 h
            exact ⟨("Unknown msg: " ++ t) :: ls, b, by simp [hout]⟩
          · intro h
            simp only [runMsgs] at h ⊢
            obtain ⟨ls, hout⟩ := ih.2 h
            exact ⟨("Unknown msg: " ++ t) :: ls, by simp [hout]⟩
      | frame f =>
          by_cases hm : matchesJob pid f
          · by_cases hs : f.isSuccess
            · refine ⟨fun _ => ⟨[f.line], true, ?_⟩, fun h => ?_⟩
              · simp [runMsgs, hm, hs]
              · simp [runMsgs, hm, hs] at h
            · constructor
              · intro h
                simp only [runMsgs, hm, hs, if_true, if_false, Bool.false_eq_true,
                  if_neg, if_pos] at h ⊢
                obtain ⟨ls, b, hout⟩ := ih.1 (by simpa [hm, hs] using h)
                refine ⟨f.line :: ls, b, ?_⟩
                simp [hm, hs, hout]
              · intro h
                simp only [runMsgs] at h ⊢
                obtain ⟨ls, hout⟩ := ih.2 (by simpa [hm, hs] using h)
                refine ⟨f.line :: ls, ?_⟩
                simp [hm, hs, hout]
          · constructor
            · intro h
              simp only [runMsgs, hm] at h ⊢
              obtain ⟨ls, b, hout⟩ := ih.1 (by simpa [hm] using h)
              exact ⟨ls, b, by simp [hm, hout]⟩
            · intro h
              simp only [runMsgs, hm] at h ⊢
              obtain ⟨ls, hout⟩ := ih.2 (by simpa [hm] using h)
              exact ⟨ls, by simp [hm, hout]⟩

theorem runMsgs_successCount (pid : String) (msgs : List RawMsg)
    (close : ConnEnd) :
    successCount (runMsgs pid msgs close).1 ≤ 1 ∧
    ((runMsgs pid msgs close).2 = false →
      successCount (runMsgs pid msgs close).1 = 0) := by
  have h := runMsgs_shape pid msgs close
  constructor
  · cases hd : (runMsgs pid msgs close).2 with
    | true =>
        obtain ⟨ls, b, hout⟩ := h.1 hd
        rw [hout, successCount_append, successCount_map_line]
        cases b <;> simp [successCount, List.countP_cons, isSuccessSignal]
    | false =>
        obtain ⟨ls, hout⟩ := h.2 hd
        rw [hout, successCount_map_line]
        exact Nat.zero_le 1
  · intro hd
    obtain ⟨ls, hout⟩ := h.2 hd
    rw [hout, successCount_map_line]

/-- The whole resumable run yields only lines before its single final
signal. -/
theorem track_finished_shape (pid : String) (conns : List Connection)
    (ems : List Emit) (h : track_progress pid conns = .finished ems) :
    ∃ (ls : List String) (b : Bool), ems = ls.map Emit.line ++ [Emit.signal b] := by
  induction conns generalizing ems with
  | nil => simp [track_progress] at h
  | cons c cs ih =>
      simp only [track_progress] at h
      by_cases hd : (runMsgs pid c.msgs c.close).2
      · rw [if_pos hd] at h
        obtain ⟨ls, b, hout⟩ := (runMsgs_shape pid c.msgs c.close).1 hd
        exact ⟨ls, b, by rw [← hout]; exact (TPResult.finished.injEq _ _).mp h.symm⟩
      · rw [if_neg hd] at h
        obtain ⟨ls0, hout0⟩ :=
          (runMsgs_shape pid c.msgs c.close).2 (Bool.not_eq_true _ ▸ hd)
        cases htp : track_progress pid cs with
        | pending o => rw [htp] at h; simp [TPResult.prepend] at h
        | finished o =>
            rw [htp] at h
            simp only [TPResult.prepend, TPResult.finished.injEq] at h
            obtain ⟨ls1, b, hout1⟩ := ih o htp
            refine ⟨ls0 ++ ls1, b, ?_⟩
            rw [← h, hout0, hout1]
            simp

theorem track_pending_shape (pid : String) (conns : List Connection)
    (ems : List Emit) (h : track_progress pid conns = .pending ems) :
    ∃ ls : List String, ems = ls.map Emit.line := by
  induction conns generalizing ems with
  | nil =>
      simp only [track_progress, TPResult.pending.injEq] at h
      exact ⟨[], by simp [← h]⟩
  | cons c cs ih =>
      simp only [track_progress] at h
      by_cases hd : (runMsgs pid c.msgs c.close).2
      · rw [if_pos hd] at h; simp at h
      · rw [if_neg hd] at h
        obtain ⟨ls0, hout0⟩ :=
          (runMsgs_shape pid c.msgs c.close).2 (Bool.not_eq_true _ ▸ hd)
        cases htp : track_progress pid cs with
        | finished o => rw [htp] at h; simp [TPResult.prepend] at h
        | pending o =>
            rw [htp] at h
            simp only [TPResult.prepend, TPResult.pending.injEq] at h
            obtain ⟨ls1, hout1⟩ := ih o htp
            exact ⟨ls0 ++ ls1, by rw [← h, hout0, hout1]; simp⟩

theorem track_successCount (pid : String) (conns : List Connection) :
    successCount (track_progress pid conns).out ≤ 1 := by
  induction conns with
  | nil => exact Nat.zero_le 1
  | cons c cs ih =>
      simp only [track_progress]
      by_cases hd : (runMsgs pid c.msgs c.close).2
      · rw [if_pos hd]
        exact (runMsgs_successCount pid c.msgs c.close).1
      · rw [if_neg hd, TPResult.out_prepend, successCount_append,
          (runMsgs_successCount pid c.msgs c.close).2 (Bool.not_eq_true _ ▸ hd),
          Nat.zero_add]
        exact ih

theorem GenOutcome.prependAll_cons (g : GenEmit) (gs : List GenEmit)
    (o : GenOutcome) :
    GenOutcome.prependAll (g :: gs) o =
      GenOutcome.prepend g (GenOutcome.prependAll gs o) := by
  cases o <;> simp [GenOutcome.prependAll, GenOutcome.prepend]

theorem genLoop_map_line (fetch : Except String String) (tail : GenOutcome)
    (ls : List String) (rest : List Emit) :
    genLoop fetch tail (ls.map Emit.line ++ rest) =
      GenOutcome.prependAll (ls.map GenEmit.progressLine)
        (genLoop fetch tail rest) := by
  induction ls with
  | nil =>
      simp only [List.map_nil, List.nil_append]
      cases genLoop fetch tail rest <;> simp [GenOutcome.prependAll]
  | cons s rest2 ih =>
      simp only [List.map_cons, List.cons_append, genLoop, List.append_eq, ih,
        GenOutcome.prependAll_cons]

theorem drainEmits_map (ls : List String) (rest : List GenEmit) :
    drainEmits (ls.map GenEmit.progressLine ++ rest) =
      (ls ++ (drainEmits rest).1, (drainEmits rest).2) := by
  induction ls with
  | nil => simp
  | cons s rest2 ih => simp [drainEmits, ih]

/-- Inserting a frame whose job identity differs from the tracked one
anywhere in a connection's messages leaves the run unchanged. -/
theorem runMsgs_filtered (pid : String) (f : Frame) (q : String)
    (hq : f.promptId = some q) (hne : q ≠ pid) (pre post : List RawMsg)
    (close : ConnEnd) :
    runMsgs pid (pre ++ .frame f :: post) close =
      runMsgs pid (pre ++ post) close := by
  have hm : matchesJob pid f = false := by
    simp [matchesJob, hq, hne]
  induction pre with
  | nil => simp [runMsgs, hm]
  | cons m pre2 ih =>
      cases m with
      | invalidJson => simp [runMsgs]
      | unknown t => simp only [List.cons_append, runMsgs, List.append_eq, ih]
      | frame g => simp only [List.cons_append, runMsgs, List.append_eq, ih]

/-- The failure line appended by the fatal arms of `track_progress`: the
`RuntimeError` text for a clean close of the message iterator, the
interpolated exception text for any other exception. -/
def connFailLine : ConnEnd → String
  | .cleanClose => "Error: Connection closed without generation completion?"
  | .fatal e => "Error: " ++ e
  | .disconnect => ""

/-! ### Claims -/

/-- C10: for every queue-status frame carrying a backend-reported remaining
count q, the normalizer emits the line "Queue Remaining: N" with N = q - 1
(so a reported 0 is surfaced as -1), never the raw count
(`src/api/comfy.py` line 83 interpolates `queue_remaining - 1`). -/
theorem c10_queue_remaining_off_by_one (pid : String) (q : Int)
    (rest : List RawMsg) (close : ConnEnd) :
    runMsgs pid (.frame (.status q) :: rest) close =
      (Emit.line ("Queue Remaining: " ++ toString (q - 1)) ::
          (runMsgs pid rest close).1,
        (runMsgs pid rest close).2) ∧
    q - 1 ≠ q ∧
    Frame.line (.status 0) = "Queue Remaining: -1" := by
  refine ⟨?_, by omega, by decide⟩
  simp [runMsgs, matchesJob, Frame.promptId, Frame.isSuccess, Frame.line]

/-- C8 counterexample: the claim says a frame whose payload fails to parse
never tears the connection down and consumption continues on the same
connection. For a payload that is not valid JSON (`json.JSONDecodeError`,
`src/api/comfy.py` lines 107-109), the handler's `continue` belongs to the
outer reconnect loop: the rest of the current connection is abandoned.
Concretely, a queue-status frame following an invalid-JSON message on the
same connection is never surfaced (first conjunct), although the same frame
alone on the connection is surfaced (second conjunct). -/
theorem c8_counterexample :
    track_progress "J" [⟨[.invalidJson, .frame (.status 5)], .disconnect⟩] =
      .pending [] ∧
    track_progress "J" [⟨[.frame (.status 5)], .disconnect⟩] =
      .pending [.line "Queue Remaining: 4"] :=
  ⟨by decide, by decide⟩

/-- C8 amended: a frame that parses as JSON but fails validation into a
recognized message type is logged, surfaced as an "Unknown msg" line, and
consumption continues on the same connection; a frame whose payload is not
valid JSON instead makes the normalizer abandon the current connection and
reconnect, emitting nothing for that connection and not failing the job. -/
theorem c8_amended_malformed_frames (pid t : String) (rest : List RawMsg)
    (close : ConnEnd) (cs : List Connection) :
    runMsgs pid (.unknown t :: rest) close =
      (Emit.line ("Unknown msg: " ++ t) :: (runMsgs pid rest close).1,
        (runMsgs pid rest close).2) ∧
    runMsgs pid (.invalidJson :: rest) close = ([], false) ∧
    track_progress pid (⟨.invalidJson :: rest, close⟩ :: cs) =
      track_progress pid cs := by
  refine ⟨rfl, rfl, ?_⟩
  simp only [track_progress, runMsgs]
  cases track_progress pid cs <;> simp [TPResult.prepend]

/-- C3: a frame carrying a job identity different from the tracked one is
never surfaced (inserting it anywhere leaves the run, and hence the event
log, unchanged); a frame carrying no job identity at all is always surfaced
as one line (`src/api/comfy.py` lines 76-79). -/
theorem c3_frame_filtering (pid : String) (f : Frame) :
    (∀ q : String, f.promptId = some q → q ≠ pid →
      (∀ pre post close,
        runMsgs pid (pre ++ .frame f :: post) close =
          runMsgs pid (pre ++ post) close) ∧
      (∀ pre post close cs,
        track_progress pid (⟨pre ++ .frame f :: post, close⟩ :: cs) =
          track_progress pid (⟨pre ++ post, close⟩ :: cs))) ∧
    (f.promptId = none →
      ∀ rest close,
        runMsgs pid (.frame f :: rest) close =
          (Emit.line f.line :: (runMsgs pid rest close).1,
            (runMsgs pid rest close).2)) := by
  constructor
  · intro q hq hne
    refine ⟨fun pre post close => runMsgs_filtered pid f q hq hne pre post close,
      fun pre post close cs => ?_⟩
    simp only [track_progress, runMsgs_filtered pid f q hq hne]
  · intro h rest close
    have hs : f.isSuccess = false := by
      cases f <;> simp_all [Frame.promptId, Frame.isSuccess]
    simp [runMsgs, matchesJob, h, hs]

/-- C3 witness: a concrete mismatched frame is dropped and a concrete
identity-free frame is surfaced. -/
theorem c3_frame_filtering_witness :
    Frame.promptId (.executing (some "K") "n7") = some "K" ∧
    ("K" : String) ≠ "J" ∧
    runMsgs "J" ([.unknown "u"] ++ .frame (.executing (some "K") "n7") :: [])
        .disconnect =
      runMsgs "J" ([.unknown "u"] ++ []) .disconnect ∧
    Frame.promptId (.status 3) = none ∧
    runMsgs "J" (.frame (.status 3) :: []) .disconnect =
      (Emit.line (Frame.line (.status 3)) :: (runMsgs "J" [] .disconnect).1,
        (runMsgs "J" [] .disconnect).2) :=
  ⟨rfl, by decide,
    ((c3_frame_filtering "J" (.executing (some "K") "n7")).1 "K" rfl
      (by decide)).1 [.unknown "u"] [] .disconnect,
    rfl,
    (c3_frame_filtering "J" (.status 3)).2 rfl [] .disconnect⟩

/-- C2: the terminal success signal is emitted at most once over the whole
resumable run; on processing a success frame for the tracked job the
normalizer emits the "Complete" line and the success signal and returns,
regardless of anything still pending on the connection (no further frames
consumed); and after an unclean disconnect the run resumes on the next
connection with all previously yielded items kept as a prefix (the event log
is never reset). -/
theorem c2_success_once_and_resume (pid : String) :
    (∀ conns, successCount (track_progress pid conns).out ≤ 1) ∧
    (∀ rest close,
      runMsgs pid (.frame (.executionSuccess pid) :: rest) close =
        ([.line ("Complete: " ++ pid), .signal true], true)) ∧
    (∀ msgs cs, (runMsgs pid msgs .disconnect).2 = false →
      (track_progress pid (⟨msgs, .disconnect⟩ :: cs)).out =
        (runMsgs pid msgs .disconnect).1 ++ (track_progress pid cs).out) := by
  refine ⟨track_successCount pid, fun rest close => ?_, fun msgs cs hd => ?_⟩
  · simp [runMsgs, matchesJob, Frame.promptId, Frame.isSuccess, Frame.line]
  · simp [track_progress, hd, TPResult.out_prepend]

/-- C2 witness: a disconnected first connection's lines survive the
reconnect as a prefix. -/
theorem c2_success_once_and_resume_witness :
    (runMsgs "J" [.frame (.status 2)] .disconnect).2 = false ∧
    (track_progress "J"
        (⟨[.frame (.status 2)], .disconnect⟩ ::
          [⟨[.frame (.executionSuccess "J")], .disconnect⟩])).out =
      (runMsgs "J" [.frame (.status 2)] .disconnect).1 ++
        (track_progress "J" [⟨[.frame (.executionSuccess "J")], .disconnect⟩]).out :=
  ⟨by decide,
    (c2_success_once_and_resume "J").2.2 [.frame (.status 2)]
      [⟨[.frame (.executionSuccess "J")], .disconnect⟩] (by decide)⟩

/-- C4: if the message iterator of a connection terminates (no invalid-JSON
reconnect and no disconnect) without the success signal having been emitted,
the run ends with the descriptive failure line and the terminal failure
signal; in particular for any exception other than connection-closed or
malformed-payload (`close = fatal e`), the run ends with exactly the
failure-message line immediately followed by the failure signal, and the
generator returns (stops). -/
theorem c4_fatal_classification (pid : String) (msgs : List RawMsg)
    (close : ConnEnd) (h1 : close ≠ .disconnect)
    (h2 : RawMsg.invalidJson ∉ msgs)
    (h3 : successCount (runMsgs pid msgs close).1 = 0) :
    ∃ ls : List String,
      (runMsgs pid msgs close).1 =
        ls.map Emit.line ++ [Emit.line (connFailLine close), Emit.signal false] ∧
      (runMsgs pid msgs close).2 = true := by
  induction msgs with
  | nil =>
      cases close with
      | cleanClose => exact ⟨[], rfl, rfl⟩
      | disconnect => exact absurd rfl h1
      | fatal e => exact ⟨[], rfl, rfl⟩
  | cons m rest ih =>
      cases m with
      | invalidJson => exact absurd (List.mem_cons_self _ _) h2
      | unknown t =>
          have h2' : RawMsg.invalidJson ∉ rest := fun hm => h2 (List.mem_cons_of_mem _ hm)
          have h3' : successCount (runMsgs pid rest close).1 = 0 := by
            simpa [runMsgs, successCount, List.countP_cons, isSuccessSignal]
              using h3
          obtain ⟨ls, hout, hdone⟩ := ih h2' h3'
          exact ⟨("Unknown msg: " ++ t) :: ls,
            by simp [runMsgs, hout], by simp [runMsgs, hdone]⟩
      | frame f =>
          have h2' : RawMsg.invalidJson ∉ rest := fun hm => h2 (List.mem_cons_of_mem _ hm)
          by_cases hm : matchesJob pid f
          · by_cases hs : f.isSuccess
            · exfalso
              have : successCount (runMsgs pid (.frame f :: rest) close).1 = 1 := by
                simp [runMsgs, hm, hs, successCount, List.countP_cons,
                  isSuccessSignal]
              omega
            · have h3' : successCount (runMsgs pid rest close).1 = 0 := by
                simpa [runMsgs, hm, hs, successCount, List.countP_cons,
                  isSuccessSignal] using h3
              obtain ⟨ls, hout, hdone⟩ := ih h2' h3'
              exact ⟨f.line :: ls,
                by simp [runMsgs, hm, hs, hout], by simp [runMsgs, hm, hs, hdone]⟩
          · have h3' : successCount (runMsgs pid rest close).1 = 0 := by
              simpa [runMsgs, hm] using h3
            obtain ⟨ls, hout, hdone⟩ := ih h2' h3'
            exact ⟨ls, by simp [runMsgs, hm, hout], by simp [runMsgs, hm, hdone]⟩

/-- C4 witness: a connection with one queue-status frame whose iterator then
reports a fatal exception ends in the failure line plus failure signal. -/
theorem c4_fatal_classification_witness :
    (ConnEnd.fatal "boom" ≠ ConnEnd.disconnect) ∧
    RawMsg.invalidJson ∉ [RawMsg.frame (.status 2)] ∧
    successCount (runMsgs "J" [.frame (.status 2)] (.fatal "boom")).1 = 0 ∧
    ∃ ls : List String,
      (runMsgs "J" [.frame (.status 2)] (.fatal "boom")).1 =
        ls.map Emit.line ++
          [Emit.line (connFailLine (.fatal "boom")), Emit.signal false] ∧
      (runMsgs "J" [.frame (.status 2)] (.fatal "boom")).2 = true :=
  ⟨by decide, by decide, by decide,
    c4_fatal_classification "J" [.frame (.status 2)] (.fatal "boom")
      (by decide) (by decide) (by decide)⟩

/-- C1: the sequence of values `status()` can observe is NOT_STARTED at
construction, IN_PROGRESS once the driving routine begins, then at most one
terminal value; it is strictly increasing along the lifecycle ranks (never
reverts), COMPLETED and FAILED never both occur, and when the routine
finishes the last status is exactly one terminal value, equal to the final
observable status. -/
theorem c1_status_lifecycle (g : GenOutcome) :
    (statusTrace g).head? = some TaskStatus.NOT_STARTED ∧
    (statusTrace g)[1]? = some TaskStatus.IN_PROGRESS ∧
    List.Chain' (fun a b => statusRank a < statusRank b) (statusTrace g) ∧
    ¬(TaskStatus.COMPLETED ∈ statusTrace g ∧ TaskStatus.FAILED ∈ statusTrace g) ∧
    (routineDone g = true →
      ((statusTrace g).getLast? = some TaskStatus.COMPLETED ∨
        (statusTrace g).getLast? = some TaskStatus.FAILED) ∧
      (statusTrace g).getLast? = some (processTask g).status) := by
  cases hrb : runBody g with
  | ok ls raw =>
      simp [statusTrace, processTask, routineDone, hrb, statusRank,
        List.chain'_cons]
  | exn ls e =>
      simp [statusTrace, processTask, routineDone, hrb, statusRank,
        List.chain'_cons]
  | hang ls =>
      simp [statusTrace, processTask, routineDone, hrb, statusRank,
        List.chain'_cons]

/-- C1 witness: a routine that finishes with a fetched artifact ends the
status chain at COMPLETED. -/
theorem c1_status_lifecycle_witness :
    routineDone (.exhausted [.result "GLB"]) = true ∧
    (((statusTrace (.exhausted [.result "GLB"])).getLast? =
        some TaskStatus.COMPLETED ∨
      (statusTrace (.exhausted [.result "GLB"])).getLast? =
        some TaskStatus.FAILED) ∧
      (statusTrace (.exhausted [.result "GLB"])).getLast? =
        some (processTask (.exhausted [.result "GLB"])).status) :=
  ⟨by decide, (c1_status_lifecycle (.exhausted [.result "GLB"])).2.2.2.2
    (by decide)⟩

/-- C5: any exception reaching the `except` arm of `_process` leaves the task
FAILED with the failure line appended, the detail stored, the duration
recorded and the coroutine returning None (first conjunct; `processTask`
being a total function into `TaskState` embeds that nothing propagates out of
the routine); and a terminal failure signal from the normalizer likewise ends
in FAILED with the generator's error line followed by the failure line of the
`RuntimeError` raised by the loop's `else` clause (second conjunct). -/
theorem c5_failure_capture :
    (∀ (g : GenOutcome) (ls : List String) (e : String),
      runBody g = .exn ls e →
      processTask g =
        ⟨.FAILED, ls ++ ["Error: " ++ e], some e, true, some none⟩) ∧
    (∀ (pid : String) (conns : List Connection) (fetch : Except String String)
      (ems : List Emit),
      track_progress pid conns = .finished ems →
      ems.getLast? = some (Emit.signal false) →
      ∃ ls : List String,
        processTask (generate_prompt (.ok pid) conns fetch) =
          ⟨.FAILED,
            ls ++ ["An error occurred during generation.",
              "Error: Comfyui stopped without completion."],
            some "Comfyui stopped without completion.", true, some none⟩) := by
  constructor
  · intro g ls e h
    simp [processTask, h]
  · intro pid conns fetch ems htp hlast
    obtain ⟨ls, b, hems⟩ := track_finished_shape pid conns ems htp
    have hb : b = false := by
      rw [hems] at hlast
      simpa [List.getLast?_append] using hlast
    subst hb
    refine ⟨ls, ?_⟩
    simp only [generate_prompt, htp, hems, genLoop_map_line]
    simp [genLoop, GenOutcome.prependAll, processTask, runBody, drainEmits_map,
      drainEmits, List.append_assoc]

/-- C5 witness: a fatal stream exception produces the FAILED record, and a
run ending in the failure signal produces the FAILED record with both error
lines. -/
theorem c5_failure_capture_witness :
    runBody (.raised [.progressLine "p"] "boom") =
      .exn ["p"] "boom" ∧
    processTask (.raised [.progressLine "p"] "boom") =
      ⟨.FAILED, ["p", "Error: boom"], some "boom", true, some none⟩ ∧
    track_progress "J" [⟨[], .fatal "oops"⟩] =
      .finished [.line "Error: oops", .signal false] ∧
    (track_progress "J" [⟨[], .fatal "oops"⟩]).out.getLast? =
      some (Emit.signal false) ∧
    ∃ ls : List String,
      processTask (generate_prompt (.ok "J") [⟨[], .fatal "oops"⟩] (.ok "x")) =
        ⟨.FAILED,
          ls ++ ["An error occurred during generation.",
            "Error: Comfyui stopped without completion."],
          some "Comfyui stopped without completion.", true, some none⟩ :=
  ⟨by decide,
    by
      have h := c5_failure_capture.1 (.raised [.progressLine "p"] "boom")
        ["p"] "boom" (by decide)
      simpa using h,
    by decide, by decide,
    c5_failure_capture.2 "J" [⟨[], .fatal "oops"⟩] (.ok "x")
      [.line "Error: oops", .signal false] (by decide) (by decide)⟩

/-- C6: once a task is terminal, exactly one of result payload and failure
detail is present — the payload iff COMPLETED, the detail iff FAILED — and
the status trace contains exactly one terminal value, which is its last
element, so the terminal status never changes after being set. -/
theorem c6_terminal_exclusivity (g : GenOutcome)
    (h : (processTask g).status.isTerminal = true) :
    ((processTask g).hasPayload ≠ (processTask g).hasError) ∧
    ((processTask g).hasPayload = true ↔
      (processTask g).status = .COMPLETED) ∧
    ((processTask g).hasError = true ↔ (processTask g).status = .FAILED) ∧
    (statusTrace g).countP (fun s => s.isTerminal) = 1 ∧
    (statusTrace g).getLast? = some (processTask g).status := by
  cases hrb : runBody g with
  | ok ls raw =>
      refine ⟨?_, ?_, ?_, ?_, ?_⟩ <;>
        simp [statusTrace, processTask, hrb, TaskState.hasPayload,
          TaskState.hasError, TaskStatus.isTerminal, List.countP_cons]
  | exn ls e =>
      refine ⟨?_, ?_, ?_, ?_, ?_⟩ <;>
        simp [statusTrace, processTask, hrb, TaskState.hasPayload,
          TaskState.hasError, TaskStatus.isTerminal, List.countP_cons]
  | hang ls =>
      rw [processTask, hrb] at h
      simp [TaskStatus.isTerminal] at h

/-- C6 witness: a failed run has the failure detail and no payload. -/
theorem c6_terminal_exclusivity_witness :
    (processTask (.raised [] "boom")).status.isTerminal = true ∧
    ((processTask (.raised [] "boom")).hasPayload ≠
      (processTask (.raised [] "boom")).hasError) ∧
    ((processTask (.raised [] "boom")).hasPayload = true ↔
      (processTask (.raised [] "boom")).status = .COMPLETED) ∧
    ((processTask (.raised [] "boom")).hasError = true ↔
      (processTask (.raised [] "boom")).status = .FAILED) ∧
    (statusTrace (.raised [] "boom")).countP (fun s => s.isTerminal) = 1 ∧
    (statusTrace (.raised [] "boom")).getLast? =
      some (processTask (.raised [] "boom")).status :=
  ⟨by decide, c6_terminal_exclusivity (.raised [] "boom") (by decide)⟩

/-- C7: for k at most the current log length, `events(k)` returns the log
suffix from k plus the new total length (and, being a pure function of the
log, repeated calls with no intervening appends return the same value); and
chaining a poll at k with a poll at the returned total after any batch of
appends reconstructs exactly the suffix from k — no line is re-delivered and
none is missed. -/
theorem c7_events_polling (log ext : List String) (k : Nat)
    (h : k ≤ log.length) :
    get_obj_events log k = (log.drop k, log.length) ∧
    (get_obj_events log k).1 ++
        (get_obj_events (log ++ ext) (get_obj_events log k).2).1 =
      (log ++ ext).drop k := by
  refine ⟨rfl, ?_⟩
  simp [get_obj_events, List.drop_append_of_le_length h]

/-- C7 witness: polling at 1 then at the returned total over an append
yields every line exactly once. -/
theorem c7_events_polling_witness :
    1 ≤ (["a", "b"] : List String).length ∧
    get_obj_events ["a", "b"] 1 = (["b"], 2) ∧
    (get_obj_events ["a", "b"] 1).1 ++
        (get_obj_events (["a", "b"] ++ ["c"]) (get_obj_events ["a", "b"] 1).2).1 =
      ((["a", "b"] : List String) ++ ["c"]).drop 1 :=
  ⟨by decide, (c7_events_polling ["a", "b"] ["c"] 1 (by decide)).1,
    (c7_events_polling ["a", "b"] ["c"] 1 (by decide)).2⟩

/-- C9: every status/events/result lookup with an unknown (client, task) pair
raises the distinct 404 "not found" (in particular `get_events` never answers
with an empty list there), and `result()` before `start()` raises the
distinct "not started" error, which is a different constructor from any
awaited task value — neither condition is a task failure. -/
theorem c9_caller_errors (reg : Registry) (cid tid : String) (k : Nat)
    (g : GenOutcome) (h : lookupTask reg cid tid = none) :
    get_obj_events_endpoint reg cid tid k =
      .httpError 404 ("Task " ++ tid ++ " not found.") ∧
    check_obj_status reg cid tid =
      .httpError 404 ("Task " ++ tid ++ " not found.") ∧
    get_obj_result_endpoint reg cid tid =
      .httpError 404 ("Task " ++ tid ++ " not found.") ∧
    (∀ v, get_obj_events_endpoint reg cid tid k ≠ .ok v) ∧
    GenerationTask_result false g =
      .notStarted "Task not started. Call start() first." ∧
    (∀ r, ResultCall.notStarted "Task not started. Call start() first." ≠
      .value r) := by
  refine ⟨?_, ?_, ?_, fun v => ?_, rfl, fun r => by simp⟩ <;>
    simp [get_obj_events_endpoint, check_obj_status, get_obj_result_endpoint, h]

/-- C9 witness: the empty registry knows no task, and an unstarted task's
`result()` raises. -/
theorem c9_caller_errors_witness :
    lookupTask [] "c" "t" = none ∧
    get_obj_events_endpoint [] "c" "t" 0 =
      .httpError 404 ("Task " ++ "t" ++ " not found.") ∧
    GenerationTask_result false (.hangs []) =
      .notStarted "Task not started. Call start() first." :=
  ⟨by decide, (c9_caller_errors [] "c" "t" 0 (.hangs []) (by decide)).1,
    (c9_caller_errors [] "c" "t" 0 (.hangs []) (by decide)).2.2.2.2.1⟩

end SdsGateway
